/-
Verification of the single-slot model lifecycle manager of the
opensource_llm_deployment repository.

The embedding models `src/model_manager.py` (class ModelManager) and the
HTTP handlers of `src/api_routes.py` as pure Lean functions with explicit
state passing.  The external machine-learning backend (the transformers
library: AutoTokenizer.from_pretrained, AutoModelForCausalLM.from_pretrained,
pipeline) is modelled as a record of fallible functions, and every call into
it is recorded in an explicit trace so that statements about which backend
calls were made (retries, fallbacks) can be proved.
-/
import Mathlib

namespace LLMDeploy

/-! ## Substring helper

Python's `ind in s` tests for a contiguous substring occurrence.  We model
it by direct recursion on the character list (an empty pattern occurs in
every string, matching Python). -/

/-- `hasSubstring hay pat` is true iff `pat` occurs contiguously in `hay`. -/
def hasSubstring (hay pat : List Char) : Bool :=
  pat.isPrefixOf hay ||
    match hay with
    | [] => false
    | _ :: t => hasSubstring t pat

/-- Python `pat in s` on strings. -/
def strContains (s pat : String) : Bool :=
  hasSubstring s.data pat.data

/-- Python `s.lower()`, working on the character list (ASCII-faithful). -/
def pyLower (s : String) : String :=
  String.mk (s.data.map Char.toLower)

/-- Python slicing `s[n:]`, which drops the first `n` characters. -/
def pyDrop (s : String) (n : Nat) : String :=
  String.mk (s.data.drop n)

/-- Python `s.strip()`: remove leading and trailing whitespace. -/
def pyStrip (s : String) : String :=
  String.mk
    (((s.data.dropWhile Char.isWhitespace).reverse.dropWhile Char.isWhitespace).reverse)

/-! ## utils.py -/

/-- `utils.is_large_model`: a model is "large" when its lowercased name
contains any of the indicator substrings. -/
def is_large_model (model_name : String) : Bool :=
  let large_indicators := ["20b", "gpt-oss", "70b", "175b"]
  large_indicators.any (fun indicator => strContains (pyLower model_name) indicator)

/-- `utils.format_error_message`: appends remediation suggestions selected by
substring-matching the raw error text. -/
def format_error_message (error : String) : String :=
  if strContains error "ModelWrapper" || strContains (pyLower error) "tokenizer" then
    error ++ "\n\n💡 GPT-OSS-20B Compatibility Issue:\n"
      ++ "This model has known compatibility issues with the current transformers version.\n"
      ++ "\n💡 Try these alternative models instead:\n"
      ++ "• microsoft/DialoGPT-medium (recommended for testing)\n"
      ++ "• gpt2 (very reliable)\n"
      ++ "• distilgpt2 (smaller, faster)\n"
      ++ "• EleutherAI/gpt-neo-125M\n"
      ++ "• facebook/opt-125m\n"
      ++ "• microsoft/DialoGPT-large (if you have enough RAM)\n"
      ++ "\n💡 For GPT-OSS-20B specifically:\n"
      ++ "• Try updating transformers: pip install --upgrade transformers\n"
      ++ "• Or use a different model for now\n"
  else if strContains (pyLower error) "out of memory" || strContains (pyLower error) "oom" then
    error ++ "\n\n💡 Memory optimization suggestions:\n"
      ++ "• Try a smaller model (gpt2, distilgpt2)\n"
      ++ "• Ensure you have at least 32GB RAM for gpt-oss-20b\n"
      ++ "• Consider using model offloading\n"
      ++ "• Try microsoft/DialoGPT-medium instead\n"
  else
    error

/-! ## Backend handles and call arguments

The transformers handles carry just the structure the manager observes:
the tokenizer's pad/eos tokens and its two tokenizing entry points
(`__call__` and `encode`, both modelled as token-id lists), the model's
device, and the pipeline's generation function. -/

/-- The torch dtypes the manager ever mentions. -/
inductive TorchDType where
  | float32
deriving DecidableEq, Repr

/-- Backend tokenizer handle (AutoTokenizer). -/
structure Tokenizer where
  pad_token : Option String
  eos_token : Option String
  eos_token_id : Option Nat
  /-- `tokenizer(prompt, return_tensors="pt")`, exposed as the token-id list. -/
  tokenize : String → List Nat
  /-- `tokenizer.encode(text)`. -/
  encode : String → List Nat

/-- Backend model handle (AutoModelForCausalLM). -/
structure ModelW where
  device : String
deriving DecidableEq, Repr

/-- `model.to(device)`. -/
def ModelW.to (m : ModelW) (d : String) : ModelW :=
  { m with device := d }

/-- Keyword arguments passed to `AutoTokenizer.from_pretrained`.
`use_fast = none` means the argument is absent (fast-path default). -/
structure TokKwargs where
  trust_remote_code : Bool
  token : Option String
  use_fast : Option Bool
deriving DecidableEq, Repr

/-- Keyword arguments passed to `AutoModelForCausalLM.from_pretrained`.
`none` on an optional field means the key is absent from the Python dict. -/
structure ModelKwargs where
  trust_remote_code : Bool
  device_map : Option String
  low_cpu_mem_usage : Option Bool
  torch_dtype : Option TorchDType
  offload_folder : Option String
  token : Option String
deriving DecidableEq, Repr

/-- The nested `model_kwargs` dict passed to `pipeline` for large models. -/
structure PipelineModelKwargs where
  low_cpu_mem_usage : Bool
deriving DecidableEq, Repr

/-- Keyword arguments passed to `pipeline("text-generation", ...)` apart
from the model and tokenizer handles. -/
structure PipelineKwargs where
  device : String
  model_kwargs : Option PipelineModelKwargs
deriving DecidableEq, Repr

/-- Sampling parameters handed to the generation pipeline call. -/
structure GenerationKwargs where
  max_length : Nat
  temperature : Rat
  top_p : Rat
  top_k : Nat
  do_sample : Bool
  num_return_sequences : Nat
  pad_token_id : Option Nat
deriving DecidableEq, Repr

/-- Backend text-generation pipeline handle.  `run` returns the list of
generated full texts (`outputs[i]["generated_text"]`), or a backend error. -/
structure Generator where
  device : String
  run : String → GenerationKwargs → Except String (List String)

/-- The external transformers backend: each acquisition can fail with a
backend error message.  `quantDepsAvailable` models whether the optional
`accelerate`/`bitsandbytes` imports succeed in the running environment. -/
structure Backend where
  quantDepsAvailable : Bool
  fromPretrainedTokenizer : String → TokKwargs → Except String Tokenizer
  fromPretrainedModel : String → ModelKwargs → Except String ModelW
  mkPipeline : ModelW → Tokenizer → PipelineKwargs → Except String Generator

/-- One recorded call into the backend during a load. -/
inductive BackendCall where
  | tokenizerLoad (model_name : String) (kwargs : TokKwargs)
  | modelLoad (model_name : String) (kwargs : ModelKwargs)
  | pipelineCreate (kwargs : PipelineKwargs)
deriving DecidableEq, Repr

/-- Is this backend call a tokenizer acquisition? -/
def BackendCall.isTokenizerLoad : BackendCall → Bool
  | .tokenizerLoad _ _ => true
  | _ => false

/-- Is this backend call a model-weights acquisition? -/
def BackendCall.isModelLoad : BackendCall → Bool
  | .modelLoad _ _ => true
  | _ => false

/-- Boolean success test on `Except`. -/
def exOk {α : Type} (e : Except String α) : Bool :=
  match e with
  | .ok _ => true
  | .error _ => false

/-- Decidable equality of `Except` results, for concrete evaluation. -/
instance exceptDecEq {ε α : Type} [DecidableEq ε] [DecidableEq α] :
    DecidableEq (Except ε α) := fun x y =>
  match x, y with
  | .error a, .error b =>
      if h : a = b then .isTrue (by rw [h])
      else .isFalse (by intro hh; injection hh; contradiction)
  | .error _, .ok _ => .isFalse (by intro hh; exact Except.noConfusion hh)
  | .ok _, .error _ => .isFalse (by intro hh; exact Except.noConfusion hh)
  | .ok a, .ok b =>
      if h : a = b then .isTrue (by rw [h])
      else .isFalse (by intro hh; injection hh; contradiction)

/-! ## model_manager.py: the ModelManager state -/

/-- The mutable slot state of `ModelManager.__init__`. -/
structure ModelManager where
  model : Option ModelW
  tokenizer : Option Tokenizer
  generator : Option Generator
  model_name : Option String
  is_loading : Bool

/-- The freshly constructed manager: every handle absent, not loading. -/
def ModelManager.init : ModelManager :=
  { model := none, tokenizer := none, generator := none,
    model_name := none, is_loading := false }

/-- `ModelManager.get_device`: CPU is forced regardless of preference. -/
def get_device (device_preference : String) : String :=
  "cpu"

/-- `ModelManager.set_model_name`. -/
def set_model_name (self : ModelManager) (model_name : String) : ModelManager :=
  { self with model_name := some model_name }

/-! ### load_model_sync: the option dictionaries it builds -/

/-- Lines 43-60 of model_manager.py: the large-model override of the
quantization flags, followed by the dependency-availability fallback.
The resulting pair is computed by the script but never forwarded to the
backend (the CPU-only load path passes no quantization option). -/
def effective_quant_flags (be : Backend) (model_name : String)
    (load_in_8bit load_in_4bit : Bool) : Bool × Bool :=
  let load_in_8bit := if is_large_model model_name then false else load_in_8bit
  let load_in_4bit := if is_large_model model_name then false else load_in_4bit
  if (load_in_8bit || load_in_4bit) && !be.quantDepsAvailable then
    (false, false)
  else
    (load_in_8bit, load_in_4bit)

/-- The first (fast-path) tokenizer kwargs: `use_fast` absent. -/
def fast_tokenizer_kwargs (trust_remote_code : Bool) (hf_token : Option String) :
    TokKwargs :=
  { trust_remote_code := trust_remote_code, token := hf_token, use_fast := none }

/-- The fallback tokenizer kwargs: same dict with `use_fast = False` added. -/
def slow_tokenizer_kwargs (trust_remote_code : Bool) (hf_token : Option String) :
    TokKwargs :=
  { fast_tokenizer_kwargs trust_remote_code hf_token with use_fast := some false }

/-- Lines 92-109: the full model kwargs.  `device_map` is always absent
(None), `low_cpu_mem_usage` is set in both branches, and large models
additionally force `torch_dtype=float32` and `offload_folder="offload"`. -/
def full_model_kwargs (model_name : String) (trust_remote_code : Bool)
    (hf_token : Option String) : ModelKwargs :=
  { trust_remote_code := trust_remote_code
    device_map := none
    low_cpu_mem_usage := some true
    torch_dtype := if is_large_model model_name then some .float32 else none
    offload_folder := if is_large_model model_name then some "offload" else none
    token := hf_token }

/-- Lines 121-126: the minimal fallback model kwargs. -/
def minimal_model_kwargs (trust_remote_code : Bool) (hf_token : Option String) :
    ModelKwargs :=
  { trust_remote_code := trust_remote_code
    device_map := none
    low_cpu_mem_usage := none
    torch_dtype := none
    offload_folder := none
    token := hf_token }

/-- Lines 137-148: the pipeline kwargs (device fixed to "cpu"; large models
add a nested `model_kwargs` dict). -/
def mk_pipeline_kwargs (model_name : String) : PipelineKwargs :=
  { device := "cpu"
    model_kwargs :=
      if is_large_model model_name then some { low_cpu_mem_usage := true } else none }

/-! ### load_model_sync itself

The Python body is one `try` block whose `except` handler sets
`is_loading = False` and re-raises with `format_error_message` applied.
We split the body into its three phases; each phase returns the result,
the manager state as mutated so far, and the trace of backend calls. -/

/-- Lines 133-153: `self.model = model.to("cpu")`, binding of the
generation pipeline, and the success exit.  A pipeline failure reaches the
outer handler with `self.model` already assigned. -/
def load_after_model (be : Backend) (self : ModelManager) (model_name : String)
    (tokenizer : Tokenizer) (m : ModelW) (calls : List BackendCall) :
    Except String Unit × ModelManager × List BackendCall :=
  let m := ModelW.to m "cpu"
  let self := { self with model := some m }
  let pipeline_kwargs := mk_pipeline_kwargs model_name
  match be.mkPipeline m tokenizer pipeline_kwargs with
  | .error e =>
      (.error (format_error_message e), { self with is_loading := false },
        calls ++ [.pipelineCreate pipeline_kwargs])
  | .ok gen =>
      (.ok (), { self with generator := some gen, is_loading := false },
        calls ++ [.pipelineCreate pipeline_kwargs])

/-- Lines 87-89: alias the pad token to the eos token when absent. -/
def ensure_pad_token (tokenizer : Tokenizer) : Tokenizer :=
  if tokenizer.pad_token.isNone then
    { tokenizer with pad_token := tokenizer.eos_token }
  else tokenizer

/-- Lines 87-131: the pad-token fix on the acquired tokenizer, then the
model-weights acquisition with its single minimal-settings fallback.  A
failure of both attempts reaches the outer handler with `self.tokenizer`
already assigned. -/
def load_after_tokenizer (be : Backend) (self : ModelManager) (model_name : String)
    (tokenizer : Tokenizer) (trust_remote_code : Bool) (hf_token : Option String)
    (calls : List BackendCall) :
    Except String Unit × ModelManager × List BackendCall :=
  let tokenizer := ensure_pad_token tokenizer
  let self := { self with tokenizer := some tokenizer }
  let model_kwargs := full_model_kwargs model_name trust_remote_code hf_token
  match be.fromPretrainedModel model_name model_kwargs with
  | .ok m =>
      load_after_model be self model_name tokenizer m
        (calls ++ [.modelLoad model_name model_kwargs])
  | .error _ =>
      let fallback_kwargs := minimal_model_kwargs trust_remote_code hf_token
      match be.fromPretrainedModel model_name fallback_kwargs with
      | .ok m =>
          load_after_model be self model_name tokenizer m
            (calls ++ [.modelLoad model_name model_kwargs,
                       .modelLoad model_name fallback_kwargs])
      | .error e2 =>
          (.error (format_error_message e2), { self with is_loading := false },
            calls ++ [.modelLoad model_name model_kwargs,
                      .modelLoad model_name fallback_kwargs])

/-- `ModelManager.load_model_sync` (lines 33-161).  Sets `is_loading`,
computes the large-model overrides, acquires the tokenizer with its single
`use_fast=False` fallback, and continues with the later phases.  On any
failure the outer handler clears `is_loading` and fails with the enriched
message; no other rollback is performed. -/
def load_model_sync (be : Backend) (self : ModelManager) (model_name : String)
    (device : String) (load_in_8bit load_in_4bit : Bool)
    (trust_remote_code : Bool) (hf_token : Option String) :
    Except String Unit × ModelManager × List BackendCall :=
  let self := { self with is_loading := true }
  -- Lines 41-60: overrides computed here are not used by the later phases
  -- (the CPU-only path never passes device or quantization to the backend).
  let _device := if is_large_model model_name then "cpu" else device
  let _quant_flags := effective_quant_flags be model_name load_in_8bit load_in_4bit
  let tokenizer_kwargs := fast_tokenizer_kwargs trust_remote_code hf_token
  match be.fromPretrainedTokenizer model_name tokenizer_kwargs with
  | .ok tokenizer =>
      load_after_tokenizer be self model_name tokenizer trust_remote_code hf_token
        [.tokenizerLoad model_name tokenizer_kwargs]
  | .error _ =>
      let tokenizer_kwargs2 := slow_tokenizer_kwargs trust_remote_code hf_token
      match be.fromPretrainedTokenizer model_name tokenizer_kwargs2 with
      | .ok tokenizer =>
          load_after_tokenizer be self model_name tokenizer trust_remote_code hf_token
            [.tokenizerLoad model_name tokenizer_kwargs,
             .tokenizerLoad model_name tokenizer_kwargs2]
      | .error e2 =>
          (.error (format_error_message e2), { self with is_loading := false },
            [.tokenizerLoad model_name tokenizer_kwargs,
             .tokenizerLoad model_name tokenizer_kwargs2])

/-! ### unload_model, get_status, generate_response -/

/-- `ModelManager.unload_model` (lines 163-193): precondition is the
defensive AND on the model and generator handles; on success every handle
and the stored name are cleared (`is_loading` is untouched). -/
def unload_model (self : ModelManager) : Except String Unit × ModelManager :=
  if self.model.isNone && self.generator.isNone then
    (.error "No model is currently loaded.", self)
  else
    (.ok (), { self with model := none, tokenizer := none,
                         generator := none, model_name := none })

/-- The status dictionary returned by `ModelManager.get_status`. -/
structure ModelStatus where
  model_name : Option String
  is_loaded : Bool
  is_loading : Bool
  device : String
deriving DecidableEq, Repr

/-- `ModelManager.get_status` (lines 251-275): pure read; `is_loaded` is the
defensive OR of the model and generator handles. -/
def get_status (self : ModelManager) : ModelStatus :=
  let device :=
    match self.model with
    | some m => m.device
    | none =>
      match self.generator with
      | some g => g.device
      | none => "unknown"
  { model_name := self.model_name
    is_loaded := self.model.isSome || self.generator.isSome
    is_loading := self.is_loading
    device := device }

/-- One recorded call into the backend during generation. -/
inductive GenCall where
  | tokenize (prompt : String)
  | generate (prompt : String) (kwargs : GenerationKwargs)
  | encode (text : String)
deriving DecidableEq, Repr

/-- The result dictionary of a successful generation.  Wall-clock timing is
external to the embedding; `generation_time` is modelled as 0. -/
structure QueryResult where
  response : String
  model_name : Option String
  generation_time : Rat
  input_tokens : Nat
  output_tokens : Nat
deriving DecidableEq, Repr

/-- Lines 217-225: the generation kwargs dict, with the tokenizer's
eos token id as `pad_token_id`. -/
def mk_generation_kwargs (max_length : Nat) (temperature top_p : Rat)
    (top_k : Nat) (do_sample : Bool) (num_return_sequences : Nat)
    (tokenizer : Tokenizer) : GenerationKwargs :=
  { max_length := max_length, temperature := temperature, top_p := top_p
    top_k := top_k, do_sample := do_sample
    num_return_sequences := num_return_sequences
    pad_token_id := tokenizer.eos_token_id }

/-- `ModelManager.generate_response` (lines 195-249).  The two precondition
errors are raised before the `try` block and so are not wrapped; every
failure inside the block is re-raised as "Generation error: ...".  The
returned trace records the backend tokenize/generate/encode calls made. -/
def generate_response (self : ModelManager) (prompt : String)
    (max_length : Nat := 512) (temperature : Rat := 7/10)
    (top_p : Rat := 9/10) (top_k : Nat := 50) (do_sample : Bool := true)
    (num_return_sequences : Nat := 1) :
    Except String QueryResult × List GenCall :=
  match self.generator with
  | none =>
      (.error "No model is currently loaded. Please deploy a model first.", [])
  | some gen =>
    if self.is_loading then
      (.error "Model is currently loading. Please wait.", [])
    else
      match self.model, self.tokenizer with
      | some _, some tokenizer =>
          let inputs := tokenizer.tokenize prompt
          let input_tokens := inputs.length
          let generation_kwargs :=
            mk_generation_kwargs max_length temperature top_p top_k do_sample
              num_return_sequences tokenizer
          match gen.run prompt generation_kwargs with
          | .error e =>
              (.error ("Generation error: " ++ e),
                [.tokenize prompt, .generate prompt generation_kwargs])
          | .ok outputs =>
            match outputs.head? with
            | none =>
                -- Python: outputs[0] on an empty list raises IndexError.
                (.error "Generation error: list index out of range",
                  [.tokenize prompt, .generate prompt generation_kwargs])
            | some generated_text =>
                let response_text := pyStrip (pyDrop generated_text prompt.length)
                let output_tokens := (tokenizer.encode response_text).length
                (.ok { response := response_text
                       model_name := self.model_name
                       generation_time := 0
                       input_tokens := input_tokens
                       output_tokens := output_tokens },
                  [.tokenize prompt, .generate prompt generation_kwargs,
                   .encode response_text])
      | _, _ =>
          (.error "Generation error: Model or tokenizer not properly loaded.", [])

/-! ## api_routes.py: the HTTP handlers over the single manager -/

/-- The body of `POST /deploy` (`models.ModelRequest`), with its defaults. -/
structure ModelRequest where
  model_name : String
  device : String := "cpu"
  load_in_8bit : Bool := false
  load_in_4bit : Bool := false
  trust_remote_code : Bool := true
  hf_token : Option String := none
deriving DecidableEq, Repr

/-- The observable outcome of the deploy handler: an HTTPException raised by
a precondition check, an uncaught exception propagating out of the loader
(FastAPI turns it into a 500), or the success dictionary. -/
inductive DeployResponse where
  | httpError (status_code : Nat) (detail : String)
  | raised (msg : String)
  | success (message model_name device status : String)
deriving DecidableEq, Repr

/-- The positional arguments `deploy_model` hands to
`model_manager.load_model_sync` (api_routes.py lines 39-48): the
quantization flags are the literals `False`, not the request's fields. -/
structure LoadCallArgs where
  model_name : String
  device : String
  load_in_8bit : Bool
  load_in_4bit : Bool
  trust_remote_code : Bool
  hf_token : Option String
deriving DecidableEq, Repr

/-- The loader arguments built by the deploy route for a given request. -/
def deploy_loader_args (req : ModelRequest) : LoadCallArgs :=
  { model_name := req.model_name
    device := get_device req.device
    load_in_8bit := false
    load_in_4bit := false
    trust_remote_code := req.trust_remote_code
    hf_token := req.hf_token }

/-- `api_routes.deploy_model` (lines 24-55): the two precondition checks
come before any mutation; then the name is stored and the loader is awaited
on the worker thread (the await makes the call synchronous from the
caller's viewpoint). -/
def deploy_model (be : Backend) (mgr : ModelManager) (req : ModelRequest) :
    DeployResponse × ModelManager × List BackendCall :=
  if mgr.is_loading then
    (.httpError 400 "Model is currently loading. Please wait.", mgr, [])
  else if mgr.model.isSome || mgr.generator.isSome then
    (.httpError 400 "Model is already loaded. Use /undeploy to unload first.", mgr, [])
  else
    let a := deploy_loader_args req
    let mgr := set_model_name mgr req.model_name
    let res := load_model_sync be mgr a.model_name a.device a.load_in_8bit
      a.load_in_4bit a.trust_remote_code a.hf_token
    match res.1 with
    | .error e => (.raised e, res.2.1, res.2.2)
    | .ok _ =>
        (.success ("Model " ++ req.model_name ++ " is being loaded on " ++ a.device)
          req.model_name a.device "loading", res.2.1, res.2.2)

/-! ## Concrete fixtures used by witnesses and counterexamples -/

/-- A concrete tokenizer handle whose token ids are the character codes. -/
def stubTokenizer : Tokenizer :=
  { pad_token := some "<pad>", eos_token := some "</s>", eos_token_id := some 0
    tokenize := fun s => s.data.map Char.toNat
    encode := fun s => s.data.map Char.toNat }

/-- A concrete model handle. -/
def stubModel : ModelW := { device := "meta" }

/-- A pipeline that always generates the full text "hihi there". -/
def stubGenerator : Generator :=
  { device := "cpu", run := fun _ _ => .ok ["hihi there"] }

/-- A pipeline that always generates the full text "hello world". -/
def helloGenerator : Generator :=
  { device := "cpu", run := fun _ _ => .ok ["hello world"] }

/-- A backend on which every acquisition succeeds. -/
def okBackend : Backend :=
  { quantDepsAvailable := false
    fromPretrainedTokenizer := fun _ _ => .ok stubTokenizer
    fromPretrainedModel := fun _ _ => .ok stubModel
    mkPipeline := fun _ _ _ => .ok stubGenerator }

/-- A backend whose pipeline binding (the last load step) fails. -/
def pipeFailBackend : Backend :=
  { okBackend with mkPipeline := fun _ _ _ => .error "zap" }

/-- A slot holding a fully loaded model. -/
def loadedManager : ModelManager :=
  { model := some { device := "cpu" }, tokenizer := some stubTokenizer
    generator := some stubGenerator, model_name := some "gpt2"
    is_loading := false }

/-- A second loaded slot, generating "hello world". -/
def loadedManager2 : ModelManager :=
  { loadedManager with generator := some helloGenerator
                       model_name := some "distilgpt2" }

/-! ## Structural lemmas about the load phases -/

/-- Behaviour of the final load phase: the model handle is assigned (moved
to cpu) before the pipeline binding is attempted, the loading flag is
cleared on both exits, the stored name and tokenizer are untouched, the
generator is assigned only on success, and exactly one pipeline call is
appended to the trace. -/
theorem load_after_model_cases (be : Backend) (self : ModelManager)
    (model_name : String) (tokenizer : Tokenizer) (m : ModelW)
    (calls : List BackendCall) :
    ((load_after_model be self model_name tokenizer m calls).2.1.model_name
        = self.model_name)
    ∧ ((load_after_model be self model_name tokenizer m calls).2.1.is_loading = false)
    ∧ ((load_after_model be self model_name tokenizer m calls).2.1.tokenizer
        = self.tokenizer)
    ∧ ((load_after_model be self model_name tokenizer m calls).2.1.model
        = some (ModelW.to m "cpu"))
    ∧ (∀ e, (load_after_model be self model_name tokenizer m calls).1 = .error e →
        (load_after_model be self model_name tokenizer m calls).2.1.generator
          = self.generator)
    ∧ ((load_after_model be self model_name tokenizer m calls).2.2
        = calls ++ [.pipelineCreate (mk_pipeline_kwargs model_name)]) := by
  cases h : be.mkPipeline (ModelW.to m "cpu") tokenizer (mk_pipeline_kwargs model_name) with
  | error e => simp [load_after_model, h]
  | ok g => simp [load_after_model, h]

@[simp] theorem isTokenizerLoad_tokenizerLoad (n : String) (k : TokKwargs) :
    (BackendCall.tokenizerLoad n k).isTokenizerLoad = true := rfl

@[simp] theorem isTokenizerLoad_modelLoad (n : String) (k : ModelKwargs) :
    (BackendCall.modelLoad n k).isTokenizerLoad = false := rfl

@[simp] theorem isTokenizerLoad_pipelineCreate (k : PipelineKwargs) :
    (BackendCall.pipelineCreate k).isTokenizerLoad = false := rfl

@[simp] theorem isModelLoad_tokenizerLoad (n : String) (k : TokKwargs) :
    (BackendCall.tokenizerLoad n k).isModelLoad = false := rfl

@[simp] theorem isModelLoad_modelLoad (n : String) (k : ModelKwargs) :
    (BackendCall.modelLoad n k).isModelLoad = true := rfl

@[simp] theorem isModelLoad_pipelineCreate (k : PipelineKwargs) :
    (BackendCall.pipelineCreate k).isModelLoad = false := rfl

/-- Behaviour of the middle load phase: the stored name is untouched, the
loading flag is cleared on every exit, the generator is only assigned on
success, no tokenizer call is added to the trace, and the model-weights
acquisition is attempted once with the full kwargs followed by exactly one
minimal-settings fallback when the first attempt fails. -/
theorem load_after_tokenizer_cases (be : Backend) (self : ModelManager)
    (model_name : String) (tokenizer : Tokenizer) (trc : Bool) (tok : Option String)
    (calls : List BackendCall) :
    ((load_after_tokenizer be self model_name tokenizer trc tok calls).2.1.model_name
        = self.model_name)
    ∧ ((load_after_tokenizer be self model_name tokenizer trc tok calls).2.1.is_loading
        = false)
    ∧ (∀ e, (load_after_tokenizer be self model_name tokenizer trc tok calls).1 = .error e →
        (load_after_tokenizer be self model_name tokenizer trc tok calls).2.1.generator
          = self.generator)
    ∧ ((load_after_tokenizer be self model_name tokenizer trc tok calls).2.2.filter
          BackendCall.isTokenizerLoad
        = calls.filter BackendCall.isTokenizerLoad)
    ∧ ((load_after_tokenizer be self model_name tokenizer trc tok calls).2.2.filter
          BackendCall.isModelLoad
        = calls.filter BackendCall.isModelLoad ++
          (if exOk (be.fromPretrainedModel model_name
              (full_model_kwargs model_name trc tok)) then
            [.modelLoad model_name (full_model_kwargs model_name trc tok)]
          else
            [.modelLoad model_name (full_model_kwargs model_name trc tok),
             .modelLoad model_name (minimal_model_kwargs trc tok)])) := by
  cases h1 : be.fromPretrainedModel model_name (full_model_kwargs model_name trc tok) with
  | ok m =>
      cases h3 : be.mkPipeline (ModelW.to m "cpu") (ensure_pad_token tokenizer)
          (mk_pipeline_kwargs model_name) with
      | error e3 =>
          simp [load_after_tokenizer, load_after_model, h1, h3, exOk,
            List.filter_append]
      | ok g =>
          simp [load_after_tokenizer, load_after_model, h1, h3, exOk,
            List.filter_append]
  | error e1 =>
      cases h2 : be.fromPretrainedModel model_name (minimal_model_kwargs trc tok) with
      | ok m =>
          cases h3 : be.mkPipeline (ModelW.to m "cpu") (ensure_pad_token tokenizer)
              (mk_pipeline_kwargs model_name) with
          | error e3 =>
              simp [load_after_tokenizer, load_after_model, h1, h2, h3, exOk,
                List.filter_append]
          | ok g =>
              simp [load_after_tokenizer, load_after_model, h1, h2, h3, exOk,
                List.filter_append]
      | error e2 =>
          simp [load_after_tokenizer, h1, h2, exOk, List.filter_append]

/-- Behaviour of `load_model_sync` over every backend outcome: the stored
name is never changed, the loading flag ends false on every exit, the
generator handle is unchanged whenever the load fails, the tokenizer is
acquired with the fast path and exactly one `use_fast=False` fallback, and
the model weights are acquired (only once a tokenizer was obtained) with
the full kwargs and exactly one minimal-settings fallback. -/
theorem load_model_sync_cases (be : Backend) (self : ModelManager)
    (model_name device : String) (l8 l4 trc : Bool) (tok : Option String) :
    ((load_model_sync be self model_name device l8 l4 trc tok).2.1.model_name
        = self.model_name)
    ∧ ((load_model_sync be self model_name device l8 l4 trc tok).2.1.is_loading = false)
    ∧ (∀ e, (load_model_sync be self model_name device l8 l4 trc tok).1 = .error e →
        (load_model_sync be self model_name device l8 l4 trc tok).2.1.generator
          = self.generator)
    ∧ ((load_model_sync be self model_name device l8 l4 trc tok).2.2.filter
          BackendCall.isTokenizerLoad
        = (if exOk (be.fromPretrainedTokenizer model_name
              (fast_tokenizer_kwargs trc tok)) then
            [.tokenizerLoad model_name (fast_tokenizer_kwargs trc tok)]
          else
            [.tokenizerLoad model_name (fast_tokenizer_kwargs trc tok),
             .tokenizerLoad model_name (slow_tokenizer_kwargs trc tok)]))
    ∧ ((load_model_sync be self model_name device l8 l4 trc tok).2.2.filter
          BackendCall.isModelLoad
        = (if (exOk (be.fromPretrainedTokenizer model_name
                (fast_tokenizer_kwargs trc tok))
              || exOk (be.fromPretrainedTokenizer model_name
                (slow_tokenizer_kwargs trc tok))) = true then
            (if exOk (be.fromPretrainedModel model_name
                (full_model_kwargs model_name trc tok)) then
              [.modelLoad model_name (full_model_kwargs model_name trc tok)]
            else
              [.modelLoad model_name (full_model_kwargs model_name trc tok),
               .modelLoad model_name (minimal_model_kwargs trc tok)])
          else [])) := by
  cases hf : be.fromPretrainedTokenizer model_name (fast_tokenizer_kwargs trc tok) with
  | ok tokenizer =>
      obtain ⟨p1, p2, p3, p4, p5⟩ := load_after_tokenizer_cases be
        { self with is_loading := true } model_name tokenizer trc tok
        [.tokenizerLoad model_name (fast_tokenizer_kwargs trc tok)]
      simp only [load_model_sync, hf]
      refine ⟨p1, p2, p3, ?_, ?_⟩
      · rw [p4]; simp [exOk, hf]
      · rw [p5]; simp [exOk, hf]
  | error ef =>
      cases hs : be.fromPretrainedTokenizer model_name (slow_tokenizer_kwargs trc tok) with
      | ok tokenizer =>
          obtain ⟨p1, p2, p3, p4, p5⟩ := load_after_tokenizer_cases be
            { self with is_loading := true } model_name tokenizer trc tok
            [.tokenizerLoad model_name (fast_tokenizer_kwargs trc tok),
             .tokenizerLoad model_name (slow_tokenizer_kwargs trc tok)]
          simp only [load_model_sync, hf, hs]
          refine ⟨p1, p2, p3, ?_, ?_⟩
          · rw [p4]; simp [exOk, hf, hs]
          · rw [p5]; simp [exOk, hf, hs]
      | error es =>
          simp [load_model_sync, hf, hs, exOk]

/-- C2: for every model name matching the large-model heuristic, the load
path is forced to the safest settings regardless of the caller-requested
options: the quantization flags are overridden to false (even when the
caller asked for 8-bit), and the primary model kwargs force low-memory
loading, float32 weights and the "offload" disk-offload folder (with the
pipeline also receiving the low-memory option). -/
theorem C2_large_model_forces_safe_load (be : Backend) (model_name : String)
    (load_in_8bit load_in_4bit trust_remote_code : Bool) (hf_token : Option String)
    (h : is_large_model model_name = true) :
    effective_quant_flags be model_name load_in_8bit load_in_4bit = (false, false)
    ∧ full_model_kwargs model_name trust_remote_code hf_token =
        { trust_remote_code := trust_remote_code, device_map := none,
          low_cpu_mem_usage := some true, torch_dtype := some .float32,
          offload_folder := some "offload", token := hf_token }
    ∧ mk_pipeline_kwargs model_name =
        { device := "cpu", model_kwargs := some { low_cpu_mem_usage := true } } := by
  unfold effective_quant_flags full_model_kwargs mk_pipeline_kwargs
  rw [h]
  simp

/-- Witness for C2 at the concrete large model name "openai/gpt-oss-20b"
with caller-requested 8-bit and 4-bit quantization. -/
theorem C2_large_model_forces_safe_load_witness :
    effective_quant_flags okBackend "openai/gpt-oss-20b" true true = (false, false)
    ∧ full_model_kwargs "openai/gpt-oss-20b" true none =
        { trust_remote_code := true, device_map := none,
          low_cpu_mem_usage := some true, torch_dtype := some .float32,
          offload_folder := some "offload", token := none }
    ∧ mk_pipeline_kwargs "openai/gpt-oss-20b" =
        { device := "cpu", model_kwargs := some { low_cpu_mem_usage := true } } :=
  C2_large_model_forces_safe_load okBackend "openai/gpt-oss-20b" true true true none
    (by decide)

/-- C3: during a load, each backend acquisition is retried at most once.
The tokenizer is requested with the fast-path kwargs and, exactly when that
attempt fails, once more with `use_fast = False`; the model weights are
requested with the full kwargs and, exactly when that attempt fails, once
more with the minimal kwargs; no further attempts of either kind occur. -/
theorem C3_single_fallback_retry (be : Backend) (self : ModelManager)
    (model_name device : String) (l8 l4 trc : Bool) (tok : Option String) :
    ((load_model_sync be self model_name device l8 l4 trc tok).2.2.filter
          BackendCall.isTokenizerLoad
        = (if exOk (be.fromPretrainedTokenizer model_name
              (fast_tokenizer_kwargs trc tok)) then
            [.tokenizerLoad model_name (fast_tokenizer_kwargs trc tok)]
          else
            [.tokenizerLoad model_name (fast_tokenizer_kwargs trc tok),
             .tokenizerLoad model_name (slow_tokenizer_kwargs trc tok)]))
    ∧ ((load_model_sync be self model_name device l8 l4 trc tok).2.2.filter
          BackendCall.isModelLoad
        = (if (exOk (be.fromPretrainedTokenizer model_name
                (fast_tokenizer_kwargs trc tok))
              || exOk (be.fromPretrainedTokenizer model_name
                (slow_tokenizer_kwargs trc tok))) = true then
            (if exOk (be.fromPretrainedModel model_name
                (full_model_kwargs model_name trc tok)) then
              [.modelLoad model_name (full_model_kwargs model_name trc tok)]
            else
              [.modelLoad model_name (full_model_kwargs model_name trc tok),
               .modelLoad model_name (minimal_model_kwargs trc tok)])
          else [])) :=
  ⟨(load_model_sync_cases be self model_name device l8 l4 trc tok).2.2.2.1,
   (load_model_sync_cases be self model_name device l8 l4 trc tok).2.2.2.2⟩

/-- C7: on every exit of `load_model_sync` — success or any failure — the
loading flag is false in the resulting state; it is never left true. -/
theorem C7_loading_flag_always_cleared (be : Backend) (self : ModelManager)
    (model_name device : String) (l8 l4 trc : Bool) (tok : Option String) :
    (load_model_sync be self model_name device l8 l4 trc tok).2.1.is_loading = false :=
  (load_model_sync_cases be self model_name device l8 l4 trc tok).2.1

/-- C9: the deploy route builds its loader arguments with the quantization
flags hard-coded to false, whatever the request carried, and with those
inputs the loader's effective quantization flags are (false, false) for
every model and backend — quantization is never attempted. -/
theorem C9_route_disables_quantization (req : ModelRequest) (be : Backend) :
    (deploy_loader_args req).load_in_8bit = false
    ∧ (deploy_loader_args req).load_in_4bit = false
    ∧ effective_quant_flags be req.model_name (deploy_loader_args req).load_in_8bit
        (deploy_loader_args req).load_in_4bit = (false, false) := by
  refine ⟨rfl, rfl, ?_⟩
  unfold effective_quant_flags deploy_loader_args
  simp

/-- C10: `unload_model` rejects with the no-model error exactly when both
the model handle and the generation capability are absent, which is exactly
when `get_status` reports `is_loaded = false`; it passes its precondition
check exactly when `is_loaded = true`. -/
theorem C10_undeploy_precondition_matches_status (self : ModelManager) :
    ((unload_model self).1 = .error "No model is currently loaded."
      ↔ (get_status self).is_loaded = false)
    ∧ ((unload_model self).1 = .ok ()
      ↔ (get_status self).is_loaded = true) := by
  cases hm : self.model <;> cases hg : self.generator <;>
    simp [unload_model, get_status, hm, hg]

/-- C4: the deploy route fails fast with the already-loading error whenever
the loading flag is set, and with the already-loaded error whenever (not
loading but) a model or generator handle is present; in both cases the
manager state is returned entirely unchanged and no backend call is made. -/
theorem C4_deploy_precondition_checks (be : Backend) (mgr : ModelManager)
    (req : ModelRequest) :
    (mgr.is_loading = true →
      deploy_model be mgr req =
        (.httpError 400 "Model is currently loading. Please wait.", mgr, []))
    ∧ (mgr.is_loading = false → (mgr.model.isSome || mgr.generator.isSome) = true →
      deploy_model be mgr req =
        (.httpError 400 "Model is already loaded. Use /undeploy to unload first.",
          mgr, [])) := by
  constructor
  · intro h
    simp [deploy_model, h]
  · intro h1 h2
    simp [deploy_model, h1, h2]

/-- Witness for C4: a deploy issued while the slot is loading, and a deploy
issued while a model is present, are both rejected with the state intact. -/
theorem C4_deploy_precondition_checks_witness :
    deploy_model okBackend { ModelManager.init with is_loading := true }
        { model_name := "gpt2" } =
      (.httpError 400 "Model is currently loading. Please wait.",
        { ModelManager.init with is_loading := true }, [])
    ∧ deploy_model okBackend loadedManager { model_name := "gpt2" } =
      (.httpError 400 "Model is already loaded. Use /undeploy to unload first.",
        loadedManager, []) :=
  ⟨(C4_deploy_precondition_checks okBackend
      { ModelManager.init with is_loading := true } { model_name := "gpt2" }).1 rfl,
   (C4_deploy_precondition_checks okBackend loadedManager
      { model_name := "gpt2" }).2 rfl rfl⟩

/-- C8: undeploy on an empty slot fails with the no-model error and leaves
the state unchanged; from a loaded slot the first undeploy succeeds,
clearing all three handles and the stored name, and an immediately repeated
undeploy fails with the no-model error (an error, not a no-op). -/
theorem C8_undeploy_twice (self : ModelManager) :
    (self.model = none → self.generator = none →
      unload_model self = (.error "No model is currently loaded.", self))
    ∧ ((self.model.isSome || self.generator.isSome) = true →
        (unload_model self).1 = .ok ()
        ∧ (unload_model self).2.model = none
        ∧ (unload_model self).2.tokenizer = none
        ∧ (unload_model self).2.generator = none
        ∧ (unload_model self).2.model_name = none
        ∧ (unload_model (unload_model self).2).1
            = .error "No model is currently loaded.") := by
  constructor
  · intro hm hg
    simp [unload_model, hm, hg]
  · intro h
    cases hm : self.model <;> cases hg : self.generator <;>
      simp_all [unload_model]

/-- Witness for C8: the double undeploy sequence on a concrete loaded slot,
and the empty-slot rejection on the fresh manager. -/
theorem C8_undeploy_twice_witness :
    unload_model ModelManager.init =
      (.error "No model is currently loaded.", ModelManager.init)
    ∧ ((unload_model loadedManager).1 = .ok ()
        ∧ (unload_model loadedManager).2.model = none
        ∧ (unload_model loadedManager).2.tokenizer = none
        ∧ (unload_model loadedManager).2.generator = none
        ∧ (unload_model loadedManager).2.model_name = none
        ∧ (unload_model (unload_model loadedManager).2).1
            = .error "No model is currently loaded.") :=
  ⟨(C8_undeploy_twice ModelManager.init).1 rfl rfl,
   (C8_undeploy_twice loadedManager).2 rfl⟩

/-- C5 as amended: a query on a slot with no generation capability fails
with the no-model error without any backend call — including when the
loading flag is set, since that check comes first — and the
model-is-loading error is produced exactly for queries that find the
loading flag set while a generation capability is present. -/
theorem C5_query_precondition_checks (self : ModelManager) (prompt : String)
    (ml : Nat) (tmp tp : Rat) (tk : Nat) (ds : Bool) (nrs : Nat) :
    (self.generator = none →
      generate_response self prompt ml tmp tp tk ds nrs =
        (.error "No model is currently loaded. Please deploy a model first.", []))
    ∧ (self.generator.isSome = true → self.is_loading = true →
      generate_response self prompt ml tmp tp tk ds nrs =
        (.error "Model is currently loading. Please wait.", [])) := by
  constructor
  · intro h
    simp [generate_response, h]
  · intro h1 h2
    cases hg : self.generator with
    | none => rw [hg] at h1; simp at h1
    | some g => simp [generate_response, hg, h2]

/-- Witness for C5: the empty-slot rejection on the fresh manager, and the
loading rejection on a loaded slot whose loading flag is set. -/
theorem C5_query_precondition_checks_witness :
    generate_response ModelManager.init "Hello" 512 (7/10) (9/10) 50 true 1 =
      (.error "No model is currently loaded. Please deploy a model first.", [])
    ∧ generate_response { loadedManager with is_loading := true } "Hello"
        512 (7/10) (9/10) 50 true 1 =
      (.error "Model is currently loading. Please wait.", []) :=
  ⟨(C5_query_precondition_checks ModelManager.init "Hello"
      512 (7/10) (9/10) 50 true 1).1 rfl,
   (C5_query_precondition_checks { loadedManager with is_loading := true } "Hello"
      512 (7/10) (9/10) 50 true 1).2 rfl rfl⟩

/-- Counterexample to C5 as stated: on an empty slot whose loading flag is
true, a query fails with the no-model error, not with the model-is-loading
error that the claim requires for every query made while loading. -/
theorem C5_counterexample_loading_empty_slot :
    ({ ModelManager.init with is_loading := true } : ModelManager).is_loading = true
    ∧ generate_response { ModelManager.init with is_loading := true } "Hello"
        512 (7/10) (9/10) 50 true 1 =
      (.error "No model is currently loaded. Please deploy a model first.", [])
    ∧ ("No model is currently loaded. Please deploy a model first."
        ≠ "Model is currently loading. Please wait.") := by
  refine ⟨rfl, by decide, by decide⟩

/-- C6 as amended: for every successful query, the returned response is the
backend's generated full text with the leading prompt-length prefix removed
and surrounding whitespace stripped (and the other result fields are as the
code computes them).  Only that echoed prefix is removed: the response can
still begin with the prompt text when the generated continuation repeats it. -/
theorem C6_response_is_stripped_suffix (self : ModelManager) (prompt : String)
    (ml : Nat) (tmp tp : Rat) (tk : Nat) (ds : Bool) (nrs : Nat)
    (g : Generator) (m : ModelW) (tokenizer : Tokenizer)
    (generated_text : String) (rest : List String)
    (hg : self.generator = some g) (hm : self.model = some m)
    (ht : self.tokenizer = some tokenizer) (hl : self.is_loading = false)
    (hrun : g.run prompt (mk_generation_kwargs ml tmp tp tk ds nrs tokenizer) =
      .ok (generated_text :: rest)) :
    (generate_response self prompt ml tmp tp tk ds nrs).1 =
      .ok { response := pyStrip (pyDrop generated_text prompt.length)
            model_name := self.model_name
            generation_time := 0
            input_tokens := (tokenizer.tokenize prompt).length
            output_tokens :=
              (tokenizer.encode (pyStrip (pyDrop generated_text prompt.length))).length } := by
  simp [generate_response, hg, hm, ht, hl, hrun]

/-- Witness for C6: a concrete slot generating "hello world" for the prompt
"hello ", whose query returns the stripped suffix "world". -/
theorem C6_response_is_stripped_suffix_witness :
    (generate_response loadedManager2 "hello " 512 (7/10) (9/10) 50 true 1).1 =
      .ok { response := "world", model_name := some "distilgpt2",
            generation_time := 0, input_tokens := 6, output_tokens := 5 } := by
  have h := C6_response_is_stripped_suffix loadedManager2 "hello "
    512 (7/10) (9/10) 50 true 1 helloGenerator { device := "cpu" } stubTokenizer
    "hello world" [] rfl rfl rfl rfl rfl
  rw [h]
  decide

/-- Counterexample to C6 as stated: with the prompt "hi" and the backend
full text "hihi there" (which does echo the prompt as its prefix), the
returned response is "hi there", which still has the literal prompt as a
prefix — refuting the claim that the response never does. -/
theorem C6_counterexample_prompt_still_prefix :
    (generate_response loadedManager "hi" 512 (7/10) (9/10) 50 true 1).1 =
      .ok { response := "hi there", model_name := some "gpt2",
            generation_time := 0, input_tokens := 2, output_tokens := 8 }
    ∧ "hi".data.isPrefixOf "hihi there".data = true
    ∧ "hi".data.isPrefixOf "hi there".data = true := by
  refine ⟨by decide, by decide, by decide⟩

/-- C1 as amended: when a deploy from an empty slot fails with a backend
error, the loading flag is reset (both directly and as reported by the
status read) and the generation capability is still absent, but the slot is
not fully rolled back: the stored model name keeps the requested
identifier, and the status reports the slot as loaded exactly when a model
handle survived (which happens when the failure occurred at pipeline
binding, after the weights were assigned). -/
theorem C1_failed_deploy_state (be : Backend) (mgr : ModelManager)
    (req : ModelRequest) (e : String)
    (hm : mgr.model = none) (hg : mgr.generator = none)
    (hl : mgr.is_loading = false)
    (hfail : (deploy_model be mgr req).1 = .raised e) :
    (deploy_model be mgr req).2.1.is_loading = false
    ∧ (get_status (deploy_model be mgr req).2.1).is_loading = false
    ∧ (deploy_model be mgr req).2.1.model_name = some req.model_name
    ∧ (deploy_model be mgr req).2.1.generator = none
    ∧ (get_status (deploy_model be mgr req).2.1).is_loaded
        = (deploy_model be mgr req).2.1.model.isSome := by
  obtain ⟨p1, p2, p3, -, -⟩ := load_model_sync_cases be
    (set_model_name mgr req.model_name)
    (deploy_loader_args req).model_name (deploy_loader_args req).device
    (deploy_loader_args req).load_in_8bit (deploy_loader_args req).load_in_4bit
    (deploy_loader_args req).trust_remote_code (deploy_loader_args req).hf_token
  simp only [deploy_model, hl, hm, hg, Option.isSome_none, Bool.or_self,
    Bool.false_eq_true, if_false] at hfail ⊢
  cases hr : (load_model_sync be (set_model_name mgr req.model_name)
      (deploy_loader_args req).model_name (deploy_loader_args req).device
      (deploy_loader_args req).load_in_8bit (deploy_loader_args req).load_in_4bit
      (deploy_loader_args req).trust_remote_code (deploy_loader_args req).hf_token).1 with
  | ok u =>
      rw [hr] at hfail
      simp at hfail
  | error e1 =>
      simp only [hr] at p3 ⊢
      have hgen := (p3 e1 rfl).trans hg
      refine ⟨p2, ?_, p1, hgen, ?_⟩
      · simp [get_status, p2]
      · simp [get_status, hgen]

/-- Witness for C1: a concrete deploy whose pipeline binding fails. -/
theorem C1_failed_deploy_state_witness :
    (deploy_model pipeFailBackend ModelManager.init
        { model_name := "gpt2" }).2.1.is_loading = false
    ∧ (get_status (deploy_model pipeFailBackend ModelManager.init
        { model_name := "gpt2" }).2.1).is_loading = false
    ∧ (deploy_model pipeFailBackend ModelManager.init
        { model_name := "gpt2" }).2.1.model_name = some "gpt2"
    ∧ (deploy_model pipeFailBackend ModelManager.init
        { model_name := "gpt2" }).2.1.generator = none
    ∧ (get_status (deploy_model pipeFailBackend ModelManager.init
        { model_name := "gpt2" }).2.1).is_loaded
        = (deploy_model pipeFailBackend ModelManager.init
            { model_name := "gpt2" }).2.1.model.isSome :=
  C1_failed_deploy_state pipeFailBackend ModelManager.init { model_name := "gpt2" }
    "zap" rfl rfl rfl (by decide)

/-- Counterexample to C1 as stated: a deploy on the empty slot whose
pipeline binding fails raises a backend error, yet the slot is not rolled
back to empty — the stored model name is still the requested identifier,
the tokenizer handle survives, and the status even reports the slot as
loaded because the model handle was assigned before the failing step. -/
theorem C1_counterexample_no_rollback :
    (deploy_model pipeFailBackend ModelManager.init { model_name := "gpt2" }).1
      = .raised "zap"
    ∧ (deploy_model pipeFailBackend ModelManager.init
        { model_name := "gpt2" }).2.1.model_name = some "gpt2"
    ∧ (deploy_model pipeFailBackend ModelManager.init
        { model_name := "gpt2" }).2.1.tokenizer.isSome = true
    ∧ (get_status (deploy_model pipeFailBackend ModelManager.init
        { model_name := "gpt2" }).2.1).is_loaded = true := by
  refine ⟨by decide, by decide, by decide, by decide⟩

end LLMDeploy
